import Mathlib

/-!
Shallow embedding of `coalib/settings/Setting.py` (the coala `Setting`
configuration value) together with the path-resolution and converter
helpers it relies on, and theorems settling the specification claims.

The embedding follows the source file `src/coalib/settings/Setting.py`.
The path primitives (`isabs`, `joinPath`, `dirname`, `normpath`,
`abspath`) embed CPython's `posixpath` module, which is what `os.path`
denotes on the POSIX platforms the program runs on; `abspath` takes the
process working directory as an explicit argument instead of reading it
from the environment.
-/

set_option autoImplicit false

namespace Coala

/-- Python whitespace for `str.strip()`: space, tab, newline, vertical
tab, form feed, carriage return. -/
def pyIsSpace (c : Char) : Bool :=
  c = ' ' ∨ c = '\t' ∨ c = '\n' ∨ c = '\x0b' ∨ c = '\x0c' ∨ c = '\r'

/-- `str.strip()`: remove leading and trailing whitespace. -/
def pyStrip (s : String) : String :=
  String.mk (((s.data.dropWhile pyIsSpace).reverse.dropWhile pyIsSpace).reverse)

/-- `posixpath.isabs`: a path is absolute iff it starts with a slash. -/
def isabs (s : String) : Bool :=
  match s.data with
  | '/' :: _ => true
  | _ => false

/-- `posixpath.join` restricted to two arguments, as used by the source:
if the second part is absolute it replaces the first, otherwise the two
are joined with a separator unless one is already present. -/
def joinPath (a b : String) : String :=
  if isabs b then b
  else if a = "" then a ++ b
  else if a.data.getLast? = some '/' then a ++ b
  else a ++ "/" ++ b

/-- Index one past the last slash of the character list (0 when there is
no slash), as computed by `str.rfind('/') + 1`. -/
def lastSlashIdx (l : List Char) : Nat :=
  (l.foldl (fun st c => (if c = '/' then st.2 + 1 else st.1, st.2 + 1)) ((0, 0) : Nat × Nat)).1

/-- `posixpath.dirname`: everything up to the last slash, with trailing
slashes stripped unless the head consists only of slashes. -/
def dirname (p : String) : String :=
  let head := p.data.take (lastSlashIdx p.data)
  if head ≠ [] ∧ head.any (fun c => c ≠ '/') then
    String.mk (head.reverse.dropWhile (fun c => c = '/')).reverse
  else
    String.mk head

/-- Split a character list on every occurrence of any delimiter in
`delims`, keeping empty pieces (like `str.split` with a separator). -/
def splitAny (delims : List Char) : List Char → List Char → List String
  | [], acc => [String.mk acc.reverse]
  | c :: cs, acc =>
    if delims.contains c then
      String.mk acc.reverse :: splitAny delims cs []
    else
      splitAny delims cs (c :: acc)

/-- The component-filtering loop of `posixpath.normpath`: drop empty and
`.` components, and let `..` cancel the previous component except at the
root of an absolute path or after an uncancellable `..`. -/
def normComps (initAbs : Bool) (comps : List String) : List String :=
  comps.foldl
    (fun acc comp =>
      if comp = "" ∨ comp = "." then acc
      else if comp ≠ ".." ∨ (initAbs = false ∧ acc = []) ∨ acc.getLast? = some ".." then
        acc ++ [comp]
      else
        acc.dropLast)
    []

/-- Concatenate path components with single slashes. -/
def joinSep : List String → String
  | [] => ""
  | [x] => x
  | x :: xs => x ++ "/" ++ joinSep xs

/-- `posixpath.normpath`: collapse `.`, `..` and redundant separators.
POSIX keeps exactly two leading slashes distinct; one, or three or more,
normalize to one. -/
def normpath (path : String) : String :=
  if path = "" then "."
  else
    let slashes : Nat :=
      match path.data with
      | '/' :: '/' :: '/' :: _ => 1
      | '/' :: '/' :: _ => 2
      | '/' :: _ => 1
      | _ => 0
    let comps := splitAny ['/'] path.data []
    let res := String.mk (List.replicate slashes '/') ++ joinSep (normComps (slashes ≠ 0) comps)
    if res = "" then "." else res

/-- `posixpath.abspath` with the working directory passed explicitly:
absolutize against `cwd` when relative, then normalize. -/
def abspath (cwd p : String) : String :=
  if isabs p then normpath p else normpath (joinPath cwd p)

/-- Modelled from the spec: the glob-escape primitive
(`coalib.parsing.Globbing.glob_escape`, whose source is not included) is
specified to escape every glob metacharacter of the dialect in use; the
dialect chosen here, matching the spec's worked example, puts a
backslash before each of the metacharacters `*`, `?`, `[` and `]`. -/
def glob_escape (s : String) : String :=
  String.mk (s.data.foldr
    (fun c acc => if c = '*' ∨ c = '?' ∨ c = '[' ∨ c = ']' then '\\' :: c :: acc else c :: acc)
    [])

/-- Modelled from the spec: the external TextValue tokenizer
(`coala_utils` `StringConverter.__iter__`, an out-of-scope collaborator)
splits the text on any configured delimiter, trims each element per the
whitespace policy, and drops empty elements when configured. -/
def tokenize (text : String) (delims : List Char) (strip removeEmpty : Bool) : List String :=
  let parts := splitAny delims text.data []
  let parts := if strip then parts.map pyStrip else parts
  if removeEmpty then parts.filter (fun p => p ≠ "") else parts

deriving instance DecidableEq for Except

/-- The origin of a `Setting`: either a plain string (a file path,
possibly empty) or a `SourcePosition` carrying a filename and a line
number, mirroring the `(str, SourcePosition)` union of `__init__`. -/
inductive Origin where
  | plain : String → Origin
  | position : String → Int → Origin
deriving DecidableEq

/-- Errors raised by the operations of `Setting.py`, named after the
spec's error taxonomy.  In the source all of them are `ValueError`
except `lineNumberUnavailable`, which is a `TypeError`. -/
inductive SettingError where
  | invalidKey
  | incompleteValue
  | missingOrigin
  | lineNumberUnavailable
deriving DecidableEq

/-- The state of a `Setting` object: the fields stored by `__init__`
(`self.length` is always initialized to 1, but the spec treats it as a
data field, so it is kept general here). -/
structure Setting where
  key : String
  value : String
  origin : Origin
  strip_whitespaces : Bool
  list_delimiters : List Char
  from_cli : Bool
  remove_empty_iter_elements : Bool
  to_append : Bool
  length : Int
deriving DecidableEq

/-- Apply a fallible function to every list element left to right,
stopping at the first failure (the evaluation order of a Python list
comprehension over fallible calls). -/
def mapExcept {α β : Type} (f : α → Except SettingError β) :
    List α → Except SettingError (List β)
  | [] => .ok []
  | x :: xs =>
    match f x with
    | .error e => .error e
    | .ok b =>
      match mapExcept f xs with
      | .error e => .error e
      | .ok bs => .ok (b :: bs)

/-- `Setting.__path__` called on a plain string element (as
`__path_list__` does): the string has no `origin` attribute, so the
`origin` argument is taken in every case.  `none` models Python's
`None` default. -/
def pathOfText (cwd text : String) (origin : Option String) (glob_escape_origin : Bool) :
    Except SettingError String :=
  let t := pyStrip text
  if isabs t then .ok t
  else
    match origin with
    | none => .error .missingOrigin
    | some o =>
      let d := abspath cwd (dirname o)
      let d2 := if glob_escape_origin then glob_escape d else d
      .ok (normpath (joinPath d2 t))

namespace Setting

/-- `Setting.__init__` combined with the `key` setter it invokes: a key
whose string form is empty raises, otherwise all fields are stored and
`length` starts at 1. -/
def construct (key value : String) (origin : Origin) (strip_whitespaces : Bool)
    (list_delimiters : List Char) (from_cli : Bool) (remove_empty_iter_elements : Bool)
    (to_append : Bool) : Except SettingError Setting :=
  if key = "" then .error .invalidKey
  else .ok ⟨key, value, origin, strip_whitespaces, list_delimiters, from_cli,
            remove_empty_iter_elements, to_append, 1⟩

/-- The `key` property getter. -/
def getKey (s : Setting) : String := s.key

/-- The `key` property setter: re-validates that the key is non-empty. -/
def setKey (s : Setting) (k : String) : Except SettingError Setting :=
  if k = "" then .error .invalidKey
  else .ok { s with key := k }

/-- The overridden `value` getter: raises while the value is an
append-pending fragment, otherwise yields the stored text (the external
`StringConverter` applies the whitespace-stripping policy to the stored
text, per the spec's TextValue description). -/
def getValue (s : Setting) : Except SettingError String :=
  if s.to_append then .error .incompleteValue
  else .ok (if s.strip_whitespaces then pyStrip s.value else s.value)

/-- `Setting.__iter__`: raises on an append-pending fragment, otherwise
delegates to the external tokenizer with the configured delimiters,
whitespace policy and empty-element policy. -/
def iterate (s : Setting) : Except SettingError (List String) :=
  if s.to_append then .error .incompleteValue
  else .ok (tokenize s.value s.list_delimiters s.strip_whitespaces s.remove_empty_iter_elements)

/-- The `origin` property: the filename of a `SourcePosition` origin,
or the plain string itself. -/
def originStr (s : Setting) : String :=
  match s.origin with
  | .plain p => p
  | .position f _ => f

/-- `str(self).strip()` as computed at the top of `__path__` (stripping
is idempotent, so the string form's own stripping does not matter). -/
def strrep (s : Setting) : String := pyStrip s.value

/-- `Setting.__path__` called on a `Setting`: `str(self)` goes through
the guarded `value` getter, so an append-pending fragment raises first;
then the setting's own origin is preferred over the argument when
non-empty, a missing origin raises, and otherwise the origin's
directory is absolutized, optionally glob-escaped, joined with the
relative text and normalized. -/
def path (cwd : String) (s : Setting) (origin : Option String) (glob_escape_origin : Bool) :
    Except SettingError String :=
  if s.to_append then .error .incompleteValue
  else
    let t := s.strrep
    if isabs t then .ok t
    else
      let eff := if s.originStr = "" then origin else some s.originStr
      match eff with
      | none => .error .missingOrigin
      | some o =>
        let d := abspath cwd (dirname o)
        let d2 := if glob_escape_origin then glob_escape d else d
        .ok (normpath (joinPath d2 t))

/-- `Setting.__glob__`: `__path__` with `glob_escape_origin=True`. -/
def glob (cwd : String) (s : Setting) (origin : Option String) : Except SettingError String :=
  path cwd s origin true

/-- `Setting.__path_list__`: iterate the value and resolve each element
(a plain string) with this setting's own origin passed explicitly.  The
list comprehension evaluates left to right and propagates the first
failure, which `mapExcept` mirrors. -/
def path_list (cwd : String) (s : Setting) : Except SettingError (List String) :=
  match s.iterate with
  | .error e => .error e
  | .ok elems => mapExcept (fun e => pathOfText cwd e (some s.originStr) false) elems

/-- `Setting.__glob_list__`: like `__path_list__` with escaping. -/
def glob_list (cwd : String) (s : Setting) : Except SettingError (List String) :=
  match s.iterate with
  | .error e => .error e
  | .ok elems => mapExcept (fun e => pathOfText cwd e (some s.originStr) true) elems

/-- The `line_number` property: only a `SourcePosition` origin has one. -/
def line_number (s : Setting) : Except SettingError Int :=
  match s.origin with
  | .position _ l => .ok l
  | .plain _ => .error .lineNumberUnavailable

/-- The `end_line_number` property: `self.length + self._origin.line - 1`
on a `SourcePosition` origin. -/
def end_line_number (s : Setting) : Except SettingError Int :=
  match s.origin with
  | .position _ l => .ok (s.length + l - 1)
  | .plain _ => .error .lineNumberUnavailable

end Setting

/-- `typed_list(conversion_func)`: convert a setting into the list of
its iterated elements, each converted by `f`; iteration failures
propagate unchanged. -/
def typed_list {α : Type} (f : String → α) (s : Setting) : Except SettingError (List α) :=
  Except.map (List.map f) s.iterate

/-- `typed_dict(key_type, value_type, default)` applied to the
mapping extracted from a setting (the key→text pairs produced by the
external `dict(setting)` primitive, represented as an association
list): every key is converted with `kf`, every value with `vf` except
that an empty raw value yields `default` instead. -/
def typed_dict {κ β : Type} (kf : String → κ) (vf : String → β) (dflt : β)
    (pairs : List (String × String)) : List (κ × β) :=
  pairs.map (fun p => (kf p.1, if p.2 = "" then dflt else vf p.2))

/-- `typed_ordered_dict(key_type, value_type, default)`: same
conversion, built over `OrderedDict(setting)`, hence explicitly
insertion-ordered. -/
def typed_ordered_dict {κ β : Type} (kf : String → κ) (vf : String → β) (dflt : β)
    (pairs : List (String × String)) : List (κ × β) :=
  pairs.map (fun p => (kf p.1, if p.2 = "" then dflt else vf p.2))

/-- Python's `int()` on the decimal numerals that appear in settings
(`int()` strips whitespace itself; failure on non-numerals is out of
scope of the claims). -/
def pyInt (s : String) : Int :=
  match (pyStrip s).data with
  | '-' :: ds => -((ds.foldl (fun n c => 10 * n + (c.toNat - 48)) 0 : Nat) : Int)
  | ds => ((ds.foldl (fun n c => 10 * n + (c.toNat - 48)) 0 : Nat) : Int)

example : pyStrip " /a/b " = "/a/b" := by decide
example : dirname "/a/[b]/origin.cfg" = "/a/[b]" := by decide
example : dirname "" = "" := by decide
example : dirname "/" = "/" := by decide
example : dirname "a.cfg" = "" := by decide
example : normpath "/a//b/./c/../d" = "/a/b/d" := by decide
example : normpath "" = "." := by decide
example : normpath "/x/" = "/x" := by decide
example : abspath "/wd" "" = "/wd" := by decide
example : joinPath "/x/y" "a.py" = "/x/y/a.py" := by decide
example : glob_escape "/a/[b]" = "/a/\\[b\\]" := by decide
example : tokenize "1, 2,3" [',', ';'] true true = ["1", "2", "3"] := by decide
example : tokenize "a.py, b.py" [',', ';'] true true = ["a.py", "b.py"] := by decide

/-! ## Concrete instances used in the worked examples -/

/-- A setting holding the list value of the spec's path-list example. -/
def sPaths : Setting :=
  ⟨"files", "a.py, b.py", Origin.plain "/x/y/origin.cfg", true, [',', ';'], false, true, false, 1⟩

/-- A setting holding the integer-list value of the spec's example. -/
def sInts : Setting :=
  ⟨"k", "1, 2,3", Origin.plain "", true, [',', ';'], false, true, false, 1⟩

/-- A setting whose origin is a source position at line 10 spanning 3
lines. -/
def sPos : Setting :=
  ⟨"k", "v", Origin.position "f.cfg" 10, true, [',', ';'], false, true, false, 3⟩

/-- A setting with an empty string origin and a relative path value. -/
def sNoOrigin : Setting :=
  ⟨"k", "rel.py", Origin.plain "", true, [',', ';'], false, true, false, 1⟩

/-- An append-pending fragment. -/
def sPending : Setting :=
  ⟨"k", "v", Origin.plain "", true, [',', ';'], false, true, true, 1⟩

/-! ## Claims -/

/-- C1: with origin escaping enabled, `__path__` first takes the
origin's directory as an absolute path, escapes glob metacharacters in
that directory string only — never in the relative value text — and
then joins and normalizes; `__glob__` is exactly `__path__` with
escaping enabled; resolving glob path `x*.py` against origin
`/a/[b]/origin.cfg` escapes only the `[b]` directory segment and leaves
`x*.py` unescaped. -/
theorem c1_glob_escapes_origin_directory_only (cwd text o : String) (s : Setting)
    (orig : Option String) (h : isabs (pyStrip text) = false) :
    pathOfText cwd text (some o) true
      = .ok (normpath (joinPath (glob_escape (abspath cwd (dirname o))) (pyStrip text))) ∧
    s.glob cwd orig = s.path cwd orig true ∧
    pathOfText "/wd" "x*.py" (some "/a/[b]/origin.cfg") true = .ok "/a/\\[b\\]/x*.py" := by
  refine ⟨?_, rfl, by decide⟩
  simp [pathOfText, h]

/-- Closed instance of C1. -/
theorem c1_witness :
    pathOfText "/wd" "x*.py" (some "/a/[b]/origin.cfg") true
      = .ok (normpath (joinPath (glob_escape (abspath "/wd" (dirname "/a/[b]/origin.cfg")))
          (pyStrip "x*.py"))) ∧
    sPaths.glob "/wd" none = sPaths.path "/wd" none true ∧
    pathOfText "/wd" "x*.py" (some "/a/[b]/origin.cfg") true = .ok "/a/\\[b\\]/x*.py" :=
  c1_glob_escapes_origin_directory_only "/wd" "x*.py" "/a/[b]/origin.cfg" sPaths none (by decide)

/-- C2: while `to_append` is set, both the `value` getter and
`__iter__` raise the incomplete-value error; on the same setting with
the flag cleared, both succeed. -/
theorem c2_append_pending_blocks_value_and_iteration (s : Setting) (h : s.to_append = true) :
    s.getValue = .error .incompleteValue ∧
    s.iterate = .error .incompleteValue ∧
    ({ s with to_append := false } : Setting).getValue
      = .ok (if s.strip_whitespaces then pyStrip s.value else s.value) ∧
    ({ s with to_append := false } : Setting).iterate
      = .ok (tokenize s.value s.list_delimiters s.strip_whitespaces
          s.remove_empty_iter_elements) := by
  refine ⟨?_, ?_, ?_, ?_⟩ <;> simp [Setting.getValue, Setting.iterate, h]

/-- Closed instance of C2. -/
theorem c2_witness :
    sPending.getValue = .error .incompleteValue ∧
    sPending.iterate = .error .incompleteValue ∧
    ({ sPending with to_append := false } : Setting).getValue
      = .ok (if sPending.strip_whitespaces then pyStrip sPending.value else sPending.value) ∧
    ({ sPending with to_append := false } : Setting).iterate
      = .ok (tokenize sPending.value sPending.list_delimiters sPending.strip_whitespaces
          sPending.remove_empty_iter_elements) :=
  c2_append_pending_blocks_value_and_iteration sPending rfl

/-- C3: when the trimmed text is not absolute, the effective origin is
the setting's own origin if non-empty, otherwise the caller-supplied
one; with an empty own origin and no caller origin the call fails with
the missing-origin error. -/
theorem c3_effective_origin_preference (cwd : String) (s : Setting) (o : Option String)
    (esc : Bool) (hap : s.to_append = false) (hrel : isabs s.strrep = false) :
    (s.originStr ≠ "" → s.path cwd o esc = pathOfText cwd s.value (some s.originStr) esc) ∧
    (s.originStr = "" → s.path cwd o esc = pathOfText cwd s.value o esc) ∧
    (s.originStr = "" → o = none → s.path cwd o esc = .error .missingOrigin) := by
  have hrel' : isabs (pyStrip s.value) = false := hrel
  refine ⟨fun hne => ?_, fun he => ?_, fun he hn => ?_⟩
  · simp [Setting.path, pathOfText, Setting.strrep, hap, hrel', hne]
  · simp [Setting.path, pathOfText, Setting.strrep, hap, hrel', he]
  · subst hn
    simp [Setting.path, Setting.strrep, hap, hrel', he]

/-- Closed instance of C3. -/
theorem c3_witness :
    (sPaths.originStr ≠ "" →
      sPaths.path "/wd" none false = pathOfText "/wd" sPaths.value (some sPaths.originStr) false) ∧
    (sPaths.originStr = "" →
      sPaths.path "/wd" none false = pathOfText "/wd" sPaths.value none false) ∧
    (sPaths.originStr = "" → (none : Option String) = none →
      sPaths.path "/wd" none false = .error .missingOrigin) :=
  c3_effective_origin_preference "/wd" sPaths none false rfl (by decide)

/-- C4 counterexample: the text `"/a/b "` (with a trailing blank) is an
absolute path by `os.path.isabs`, yet `__path__` returns its trimmed
form `"/a/b"`, not the text unchanged. -/
theorem c4_counterexample :
    isabs "/a/b " = true ∧ pathOfText "/wd" "/a/b " none false ≠ .ok "/a/b " := by
  decide

/-- C4 (amended): for every text whose trimmed form is absolute,
`__path__` returns that trimmed form and never fails, for every origin
(including none); in particular a text carrying no surrounding
whitespace is returned unchanged. -/
theorem c4_absolute_text_returned_trimmed (cwd text : String) (o : Option String) (esc : Bool)
    (h : isabs (pyStrip text) = true) :
    pathOfText cwd text o esc = .ok (pyStrip text) ∧
    (pyStrip text = text → pathOfText cwd text o esc = .ok text) := by
  have h1 : pathOfText cwd text o esc = .ok (pyStrip text) := by simp [pathOfText, h]
  exact ⟨h1, fun ht => by rw [h1, ht]⟩

/-- Closed instance of C4 (amended). -/
theorem c4_witness :
    pathOfText "/wd" "/a/b" none false = .ok (pyStrip "/a/b") ∧
    (pyStrip "/a/b" = "/a/b" → pathOfText "/wd" "/a/b" none false = .ok "/a/b") :=
  c4_absolute_text_returned_trimmed "/wd" "/a/b" none false (by decide)

/-- A path resolution that was handed an explicit (non-`None`) origin
string never fails: either the text is already absolute, or the origin
directory is absolutized and joined. -/
theorem pathOfText_some_ok (cwd e o : String) (esc : Bool) :
    ∃ r, pathOfText cwd e (some o) esc = .ok r := by
  unfold pathOfText
  by_cases h : isabs (pyStrip e)
  · simp [h]
  · simp [h]

/-- `mapExcept` succeeds when the function succeeds on every element
of the list. -/
theorem mapExcept_ok_of_forall_ok {α β : Type} (f : α → Except SettingError β) :
    ∀ l : List α, (∀ a ∈ l, ∃ b, f a = .ok b) → ∃ l', mapExcept f l = .ok l' := by
  intro l
  induction l with
  | nil => exact fun _ => ⟨[], rfl⟩
  | cons x xs ih =>
    intro h
    obtain ⟨b, hb⟩ := h x (List.mem_cons_self x xs)
    obtain ⟨l', hl'⟩ := ih (fun a ha => h a (List.mem_cons_of_mem x ha))
    exact ⟨b :: l', by simp [mapExcept, hb, hl']⟩

/-- C5: `__path_list__` iterates the value and resolves every element
with this setting's own origin (the function takes no caller origin at
all), in iteration order; on the value `a.py, b.py` with origin
`/x/y/origin.cfg` it yields `/x/y/a.py`, `/x/y/b.py`. -/
theorem c5_path_list_resolves_with_own_origin (cwd : String) (s : Setting)
    (elems : List String) (h : s.iterate = .ok elems) :
    s.path_list cwd = mapExcept (fun e => pathOfText cwd e (some s.originStr) false) elems ∧
    sPaths.path_list "/wd" = .ok ["/x/y/a.py", "/x/y/b.py"] := by
  refine ⟨?_, by decide⟩
  simp [Setting.path_list, h]

/-- Closed instance of C5. -/
theorem c5_witness :
    sPaths.path_list "/wd"
      = mapExcept (fun e => pathOfText "/wd" e (some sPaths.originStr) false) ["a.py", "b.py"] ∧
    sPaths.path_list "/wd" = .ok ["/x/y/a.py", "/x/y/b.py"] :=
  c5_path_list_resolves_with_own_origin "/wd" sPaths ["a.py", "b.py"] (by decide)

/-- C6: `typed_list(f)` converts a non-append-pending setting into the
list of its iterated elements each converted by `f` (so `typed_list int`
on `1, 2,3` with delimiters `,` and `;` yields 1, 2, 3) and fails on an
append-pending setting exactly as the underlying iteration does. -/
theorem c6_typed_list_maps_converter (α : Type) (f : String → α) (s : Setting) :
    (∀ elems, s.iterate = .ok elems → typed_list f s = .ok (elems.map f)) ∧
    (s.to_append = true → typed_list f s = .error .incompleteValue) ∧
    typed_list pyInt sInts = .ok [1, 2, 3] := by
  refine ⟨fun elems h => ?_, fun h => ?_, by decide⟩
  · simp [typed_list, h, Except.map]
  · simp [typed_list, Setting.iterate, h, Except.map]

/-- Closed instance of C6. -/
theorem c6_witness :
    typed_list pyInt sInts = .ok (["1", "2", "3"].map pyInt) ∧
    typed_list pyInt sPending = .error .incompleteValue :=
  ⟨(c6_typed_list_maps_converter Int pyInt sInts).1 ["1", "2", "3"] (by decide),
   (c6_typed_list_maps_converter Int pyInt sPending).2.1 rfl⟩

/-- C7: `typed_dict` converts every key with the key converter and
every value with the value converter except that an empty raw value
text yields the default instead; `typed_ordered_dict` has identical
semantics and keeps the source mapping's insertion order. -/
theorem c7_typed_dict_semantics (κ β : Type) (kf : String → κ) (vf : String → β) (dflt : β)
    (pairs : List (String × String)) :
    typed_dict kf vf dflt pairs
      = pairs.map (fun p => (kf p.1, if p.2 = "" then dflt else vf p.2)) ∧
    typed_ordered_dict kf vf dflt pairs = typed_dict kf vf dflt pairs ∧
    (typed_ordered_dict kf vf dflt pairs).map Prod.fst = pairs.map (fun p => kf p.1) ∧
    typed_dict (fun k => k) pyInt 0 [("a", "1"), ("b", "")] = [("a", (1 : Int)), ("b", 0)] ∧
    typed_ordered_dict (fun k => k) pyInt 0 [("a", "1"), ("b", "")]
      = [("a", (1 : Int)), ("b", 0)] := by
  refine ⟨rfl, rfl, ?_, by decide, by decide⟩
  simp [typed_ordered_dict]

/-- C8: the line-number queries succeed exactly on a `SourcePosition`
origin and fail with the unavailability error otherwise, and the end
line number is `length + line - 1` (3 lines starting at line 10 end at
line 12). -/
theorem c8_line_number_queries (s : Setting) :
    (∀ f l, s.origin = .position f l →
        s.line_number = .ok l ∧ s.end_line_number = .ok (s.length + l - 1)) ∧
    (∀ p, s.origin = .plain p →
        s.line_number = .error .lineNumberUnavailable ∧
        s.end_line_number = .error .lineNumberUnavailable) ∧
    sPos.line_number = .ok 10 ∧ sPos.end_line_number = .ok 12 := by
  refine ⟨fun f l h => ?_, fun p h => ?_, by decide, by decide⟩
  · simp [Setting.line_number, Setting.end_line_number, h]
  · simp [Setting.line_number, Setting.end_line_number, h]

/-- Closed instance of C8. -/
theorem c8_witness :
    sPos.line_number = .ok 10 ∧ sPos.end_line_number = .ok (sPos.length + 10 - 1) :=
  (c8_line_number_queries sPos).1 "f.cfg" 10 rfl

/-- C9: construction and key assignment store any non-empty key, which
the getter returns, and reject an empty key with the invalid-key error,
so the key is never empty after construction or assignment. -/
theorem c9_key_never_empty (k v k2 : String) (o : Origin) (sw : Bool) (ld : List Char)
    (fc re ta : Bool) (s : Setting) :
    (k ≠ "" → ∃ s', Setting.construct k v o sw ld fc re ta = .ok s' ∧ s'.getKey = k) ∧
    Setting.construct "" v o sw ld fc re ta = .error .invalidKey ∧
    s.setKey "" = .error .invalidKey ∧
    (k2 ≠ "" → ∃ s', s.setKey k2 = .ok s' ∧ s'.getKey = k2) ∧
    (∀ s', Setting.construct k v o sw ld fc re ta = .ok s' → s'.getKey ≠ "") ∧
    (∀ s', s.setKey k2 = .ok s' → s'.getKey ≠ "") := by
  refine ⟨fun hk => ?_, by simp [Setting.construct], by simp [Setting.setKey],
    fun hk => ?_, fun s' h => ?_, fun s' h => ?_⟩
  · exact ⟨⟨k, v, o, sw, ld, fc, re, ta, 1⟩, by simp [Setting.construct, hk], rfl⟩
  · exact ⟨{ s with key := k2 }, by simp [Setting.setKey, hk], rfl⟩
  · by_cases hk : k = ""
    · simp [Setting.construct, hk] at h
    · simp [Setting.construct, hk] at h
      subst h
      simpa [Setting.getKey] using hk
  · by_cases hk : k2 = ""
    · simp [Setting.setKey, hk] at h
    · simp [Setting.setKey, hk] at h
      subst h
      simpa [Setting.getKey] using hk

/-- Closed instance of C9. -/
theorem c9_witness :
    ∃ s', Setting.construct "key2" "v" (Origin.plain "") true [',', ';'] false true false
        = .ok s' ∧ s'.getKey = "key2" :=
  (c9_key_never_empty "key2" "v" "nk" (Origin.plain "") true [',', ';'] false true false
    sPaths).1 (by decide)

/-- C10: on a non-append-pending setting whose origin is the empty
string, `__path_list__` and `__glob_list__` never raise the
missing-origin error, because every element is resolved with the empty
string passed explicitly as origin (not `None`); a relative element is
then resolved against the absolute form of the empty directory, i.e.
the process working directory. -/
theorem c10_empty_origin_resolves_against_cwd (cwd : String) (s : Setting)
    (hap : s.to_append = false) (ho : s.originStr = "") :
    (∃ l, s.path_list cwd = .ok l) ∧
    (∃ l, s.glob_list cwd = .ok l) ∧
    (∀ e, isabs (pyStrip e) = false →
        pathOfText cwd e (some s.originStr) false
          = .ok (normpath (joinPath (abspath cwd "") (pyStrip e)))) ∧
    sNoOrigin.path_list "/wd" = .ok ["/wd/rel.py"] ∧
    sNoOrigin.glob_list "/wd" = .ok ["/wd/rel.py"] := by
  refine ⟨?_, ?_, fun e he => ?_, by decide, by decide⟩
  · obtain ⟨l', hl'⟩ := mapExcept_ok_of_forall_ok
      (fun e => pathOfText cwd e (some s.originStr) false)
      (tokenize s.value s.list_delimiters s.strip_whitespaces s.remove_empty_iter_elements)
      (fun a _ => pathOfText_some_ok cwd a s.originStr false)
    exact ⟨l', by simp [Setting.path_list, Setting.iterate, hap, hl']⟩
  · obtain ⟨l', hl'⟩ := mapExcept_ok_of_forall_ok
      (fun e => pathOfText cwd e (some s.originStr) true)
      (tokenize s.value s.list_delimiters s.strip_whitespaces s.remove_empty_iter_elements)
      (fun a _ => pathOfText_some_ok cwd a s.originStr true)
    exact ⟨l', by simp [Setting.glob_list, Setting.iterate, hap, hl']⟩
  · rw [ho]
    have hd : dirname "" = "" := by decide
    simp [pathOfText, he, hd]

/-- Closed instance of C10. -/
theorem c10_witness :
    (∃ l, sNoOrigin.path_list "/wd" = .ok l) ∧
    (∃ l, sNoOrigin.glob_list "/wd" = .ok l) ∧
    (∀ e, isabs (pyStrip e) = false →
        pathOfText "/wd" e (some sNoOrigin.originStr) false
          = .ok (normpath (joinPath (abspath "/wd" "") (pyStrip e)))) ∧
    sNoOrigin.path_list "/wd" = .ok ["/wd/rel.py"] ∧
    sNoOrigin.glob_list "/wd" = .ok ["/wd/rel.py"] :=
  c10_empty_origin_resolves_against_cwd "/wd" sNoOrigin rfl rfl

end Coala
